import Mathlib

/-!
Verification of the archive-first dual-source snapshot acquisition core
(`scripts/wayback_fetch.py`) of the ClimateSTANCE repository.

The network is modelled as an environment: each HTTP operation is driven by
a function `Nat → Attempt` giving, for attempt index `i`, either the
`requests.Response` obtained on that attempt or the transport exception it
raised (`requests.RequestException`).  JSON parsing of the wayback
availability payload is modelled by a function from the response text to the
optional `closest` snapshot entry.  Everything else is a direct shallow
embedding of the Python source: string bodies, `Nat` status codes, and the
result dictionary as a structure of strings.
-/

namespace WaybackFetch

/-- `MIN_GOOD_LEN = 800`: treat very small HTML as unusable. -/
def MIN_GOOD_LEN : Nat := 800

/-- A successful HTTP response: `requests.Response` restricted to the two
fields the code reads (`status_code`, `text`). -/
structure Response where
  status_code : Nat
  text : String
deriving DecidableEq

/-- Outcome of one transport attempt inside `_get`: either a response or a
raised `requests.RequestException` (carried as its message). -/
inductive Attempt where
  | ok (r : Response)
  | exc (e : String)
deriving DecidableEq

/-- The retry loop of `_get`: `for i in range(tries): try: return requests.get(...)
except RequestException as e: last_exc = e`; after the loop the last exception
is re-raised (or a generic one if `tries = 0`).  Returns the result together
with the number of network calls actually made. -/
def getRun (attempts : Nat → Attempt) : Nat → Nat → Option String → Except String Response × Nat
  | _, 0, some e => (Except.error e, 0)
  | _, 0, none => (Except.error "Unknown requests error", 0)
  | i, fuel + 1, _ =>
    match attempts i with
    | Attempt.ok r => (Except.ok r, 1)
    | Attempt.exc e =>
      let p := getRun attempts (i + 1) fuel (some e)
      (p.1, p.2 + 1)

/-- `_get(url, timeout=25, tries=3, backoff=0.75)`: wrapper around
`requests.get` with retries; raises the last exception if all retries fail.
The url/timeout/backoff only affect the network, which the `attempts`
oracle abstracts. -/
def _get (attempts : Nat → Attempt) (tries : Nat) : Except String Response :=
  (getRun attempts 0 tries none).1

/-- Number of network calls `_get` performs. -/
def _get_calls (attempts : Nat → Attempt) (tries : Nat) : Nat :=
  (getRun attempts 0 tries none).2

/-- Left-pad the decimal rendering of `n` with zeros to width `w`
(Python `f"{n:0wd}"`). -/
def padNum (w n : Nat) : String :=
  let s := toString n
  String.mk (List.replicate (w - s.length) '0') ++ s

/-- `_mid_month_timestamp(year, month)`: `f"{year:04d}{month:02d}15" "120000"`. -/
def _mid_month_timestamp (year month : Nat) : String :=
  padNum 4 year ++ padNum 2 month ++ "15" ++ "120000"

/-- `fetch_live(url)`: empty url short-circuits to `(None, 0)`;
otherwise one `_get` with 3 tries; success needs status 200, truthy text and
`len(text) > MIN_GOOD_LEN`; a transport failure gives `(None, 0)`. -/
def fetch_live (attempts : Nat → Attempt) (url : String) : Option String × Nat :=
  if url = "" then (none, 0)
  else
    match _get attempts 3 with
    | Except.ok r =>
      if r.status_code = 200 ∧ r.text ≠ "" ∧ MIN_GOOD_LEN < r.text.length then
        (some r.text, r.status_code)
      else
        (none, r.status_code)
    | Except.error _ => (none, 0)

/-- Number of network calls made by `fetch_live`. -/
def fetch_live_calls (attempts : Nat → Attempt) (url : String) : Nat :=
  if url = "" then 0 else _get_calls attempts 3

/-- `fetch_archived(archive_url)`: same logic as `fetch_live` applied to the
archived-snapshot URL. -/
def fetch_archived (attempts : Nat → Attempt) (archive_url : String) : Option String × Nat :=
  if archive_url = "" then (none, 0)
  else
    match _get attempts 3 with
    | Except.ok r =>
      if r.status_code = 200 ∧ r.text ≠ "" ∧ MIN_GOOD_LEN < r.text.length then
        (some r.text, r.status_code)
      else
        (none, r.status_code)
    | Except.error _ => (none, 0)

/-- Number of network calls made by `fetch_archived`. -/
def fetch_archived_calls (attempts : Nat → Attempt) (archive_url : String) : Nat :=
  if archive_url = "" then 0 else _get_calls attempts 3

/-- The `archived_snapshots.closest` entry of the wayback availability
payload, as the code reads it: `available` truthiness and the optional
`url`/`timestamp` fields. -/
structure Closest where
  available : Bool
  url : Option String
  timestamp : Option String

/-- `wayback_lookup(url, year, month)`: empty url gives `(None, None)`;
otherwise one `_get`; `raise_for_status` (status ≥ 400) and transport
failures are caught and give `(None, None)`; else the parsed `closest`
entry, if present and available, yields its url and timestamp. -/
def wayback_lookup (attempts : Nat → Attempt) (parseClosest : String → Option Closest)
    (url : String) (_year _month : Nat) : Option String × Option String :=
  if url = "" then (none, none)
  else
    match _get attempts 3 with
    | Except.error _ => (none, none)
    | Except.ok r =>
      if 400 ≤ r.status_code then (none, none)
      else
        match parseClosest r.text with
        | some c => if c.available then (c.url, c.timestamp) else (none, none)
        | none => (none, none)

/-- The network/parsing environment of one `collect_dual` call: transport
outcomes for the wayback-availability call, the archive fetch and the live
fetch, plus the JSON extraction of `archived_snapshots.closest`. -/
structure Env where
  lookupAttempts : Nat → Attempt
  parseClosest : String → Option Closest
  archiveAttempts : Nat → Attempt
  liveAttempts : Nat → Attempt

/-- The dictionary returned by `collect_dual`, all values strings. -/
structure SnapshotResult where
  archive_html : String
  status_archive : String
  archive_url : String
  snapshot_ts : String
  live_html : String
  status_live : String
  chosen_provenance : String
  reason : String
deriving DecidableEq

/-- `str(code or "")`: status 0 is falsy in Python, so it renders as the
empty string; any other code renders in decimal. -/
def strOfCode (code : Nat) : String :=
  if code = 0 then "" else toString code

/-- The initial `out` dictionary of `collect_dual`. -/
def initial_result : SnapshotResult :=
  { archive_html := "", status_archive := "", archive_url := "", snapshot_ts := ""
    live_html := "", status_live := "", chosen_provenance := "none", reason := "" }

/-- Step 3 of `collect_dual` (the Provenance Selector): choose the
authoritative source from the two body lengths, archive first. -/
def select_provenance (archive_html live_html : String) : String × String :=
  if MIN_GOOD_LEN ≤ archive_html.length then ("archive", "archive_ok")
  else if MIN_GOOD_LEN ≤ live_html.length then ("live", "archive_missing_or_small_live_ok")
  else ("none", "both_missing_or_small")

/-- Apply the Selector's verdict to the partially filled result. -/
def apply_selection (o : SnapshotResult) : SnapshotResult :=
  { o with chosen_provenance := (select_provenance o.archive_html o.live_html).1
           reason := (select_provenance o.archive_html o.live_html).2 }

/-- Steps 1 and 2 of `collect_dual`: resolve the snapshot, fetch the archive
body when a truthy archive url came back, then unconditionally fetch live. -/
def pre_result (env : Env) (url : String) (year month : Nat) : SnapshotResult :=
  let lk := wayback_lookup env.lookupAttempts env.parseClosest url year month
  let a_url := lk.1.getD ""
  let o1 :=
    if a_url ≠ "" then
      let fa := fetch_archived env.archiveAttempts a_url
      { initial_result with
          archive_html := fa.1.getD ""
          status_archive := strOfCode fa.2
          archive_url := a_url
          snapshot_ts := lk.2.getD "" }
    else initial_result
  let fl := fetch_live env.liveAttempts url
  { o1 with live_html := fl.1.getD "", status_live := strOfCode fl.2 }

/-- `collect_dual(url, year, month)`: archive-first with live kept in
parallel; fills the result dictionary and applies the selection policy. -/
def collect_dual (env : Env) (url : String) (year month : Nat) : SnapshotResult :=
  apply_selection (pre_result env url year month)

/-- Network calls made against the archived-snapshot URL during
`collect_dual` (the archive fetch happens only under the `if a_url:` guard). -/
def collect_dual_archive_calls (env : Env) (url : String) (year month : Nat) : Nat :=
  let lk := wayback_lookup env.lookupAttempts env.parseClosest url year month
  let a_url := lk.1.getD ""
  if a_url ≠ "" then fetch_archived_calls env.archiveAttempts a_url else 0

/-- Network calls made against the live URL during `collect_dual`
(the live fetch is unconditional). -/
def collect_dual_live_calls (env : Env) (url : String) (_year _month : Nat) : Nat :=
  fetch_live_calls env.liveAttempts url

/-! ## Concrete inputs used for counterexamples and witnesses -/

/-- An archive body of exactly `MIN_GOOD_LEN` (800) characters. -/
def archBody800 : String := String.mk (List.replicate 800 'a')

/-- An archive body of `MIN_GOOD_LEN + 1` (801) characters. -/
def archBody801 : String := String.mk (List.replicate 801 'a')

/-- A live body of `MIN_GOOD_LEN + 1` (801) characters. -/
def liveBody801 : String := String.mk (List.replicate 801 'b')

/-- A wayback `closest` entry that is available and has a snapshot URL. -/
def closestExample : Closest :=
  { available := true
    url := some "https://web.archive.org/web/20200115120000/http://example.com/"
    timestamp := some "20200115120000" }

/-- Lookup succeeds; the archive fetch answers 200 with exactly 800
characters; the live fetch answers 200 with an empty body. -/
def envExactThreshold : Env :=
  { lookupAttempts := fun _ => Attempt.ok ⟨200, "payload"⟩
    parseClosest := fun _ => some closestExample
    archiveAttempts := fun _ => Attempt.ok ⟨200, archBody800⟩
    liveAttempts := fun _ => Attempt.ok ⟨200, ""⟩ }

/-- Lookup succeeds; the archive fetch answers 200 with 801 characters; the
live fetch answers 200 with an empty body. -/
def envGood801 : Env :=
  { lookupAttempts := fun _ => Attempt.ok ⟨200, "payload"⟩
    parseClosest := fun _ => some closestExample
    archiveAttempts := fun _ => Attempt.ok ⟨200, archBody801⟩
    liveAttempts := fun _ => Attempt.ok ⟨200, ""⟩ }

/-- Lookup succeeds; the archive fetch answers 200 with exactly 800
characters; the live fetch answers 200 with 801 characters. -/
def envBorderLive : Env :=
  { lookupAttempts := fun _ => Attempt.ok ⟨200, "payload"⟩
    parseClosest := fun _ => some closestExample
    archiveAttempts := fun _ => Attempt.ok ⟨200, archBody800⟩
    liveAttempts := fun _ => Attempt.ok ⟨200, liveBody801⟩ }

/-- Every transport attempt of the lookup fails; the live fetch answers 200
with an empty body. -/
def envLookupFails : Env :=
  { lookupAttempts := fun _ => Attempt.exc "connection timed out"
    parseClosest := fun _ => none
    archiveAttempts := fun _ => Attempt.exc "connection timed out"
    liveAttempts := fun _ => Attempt.ok ⟨200, ""⟩ }

/-- Lookup succeeds but every transport attempt of the archive fetch and of
the live fetch fails. -/
def envArchiveTransportFails : Env :=
  { lookupAttempts := fun _ => Attempt.ok ⟨200, "payload"⟩
    parseClosest := fun _ => some closestExample
    archiveAttempts := fun _ => Attempt.exc "connection refused"
    liveAttempts := fun _ => Attempt.exc "connection refused" }

/-! ## Helper lemmas -/

/-- The Selector's decision table, first matching rule wins. -/
theorem select_provenance_cases (a l : String) :
    (MIN_GOOD_LEN ≤ a.length ∧ select_provenance a l = ("archive", "archive_ok")) ∨
    (¬ MIN_GOOD_LEN ≤ a.length ∧ MIN_GOOD_LEN ≤ l.length ∧
      select_provenance a l = ("live", "archive_missing_or_small_live_ok")) ∨
    (¬ MIN_GOOD_LEN ≤ a.length ∧ ¬ MIN_GOOD_LEN ≤ l.length ∧
      select_provenance a l = ("none", "both_missing_or_small")) := by
  unfold select_provenance
  by_cases ha : MIN_GOOD_LEN ≤ a.length
  · exact Or.inl ⟨ha, by rw [if_pos ha]⟩
  · by_cases hl : MIN_GOOD_LEN ≤ l.length
    · exact Or.inr (Or.inl ⟨ha, hl, by rw [if_neg ha, if_pos hl]⟩)
    · exact Or.inr (Or.inr ⟨ha, hl, by rw [if_neg ha, if_neg hl]⟩)

theorem collect_dual_chosen (env : Env) (url : String) (year month : Nat) :
    (collect_dual env url year month).chosen_provenance =
      (select_provenance (pre_result env url year month).archive_html
        (pre_result env url year month).live_html).1 := rfl

theorem collect_dual_reason (env : Env) (url : String) (year month : Nat) :
    (collect_dual env url year month).reason =
      (select_provenance (pre_result env url year month).archive_html
        (pre_result env url year month).live_html).2 := rfl

theorem collect_dual_archive_html (env : Env) (url : String) (year month : Nat) :
    (collect_dual env url year month).archive_html =
      (pre_result env url year month).archive_html := rfl

theorem collect_dual_live_html (env : Env) (url : String) (year month : Nat) :
    (collect_dual env url year month).live_html =
      (pre_result env url year month).live_html := rfl

theorem pre_result_live_html (env : Env) (url : String) (year month : Nat) :
    (pre_result env url year month).live_html =
      (fetch_live env.liveAttempts url).1.getD "" := rfl

theorem pre_result_status_live (env : Env) (url : String) (year month : Nat) :
    (pre_result env url year month).status_live =
      strOfCode (fetch_live env.liveAttempts url).2 := rfl

/-- `fetch_live` only ever hands back a body strictly longer than
`MIN_GOOD_LEN`; otherwise the body slot is `none`. -/
theorem fetch_live_body_good (attempts : Nat → Attempt) (url : String) :
    (fetch_live attempts url).1.getD "" = "" ∨
      MIN_GOOD_LEN < ((fetch_live attempts url).1.getD "").length := by
  unfold fetch_live
  split
  · exact Or.inl rfl
  · split
    · split
      · next h => exact Or.inr (by simpa using h.2.2)
      · exact Or.inl rfl
    · exact Or.inl rfl

/-- `fetch_archived` only ever hands back a body strictly longer than
`MIN_GOOD_LEN`; otherwise the body slot is `none`. -/
theorem fetch_archived_body_good (attempts : Nat → Attempt) (archive_url : String) :
    (fetch_archived attempts archive_url).1.getD "" = "" ∨
      MIN_GOOD_LEN < ((fetch_archived attempts archive_url).1.getD "").length := by
  unfold fetch_archived
  split
  · exact Or.inl rfl
  · split
    · split
      · next h => exact Or.inr (by simpa using h.2.2)
      · exact Or.inl rfl
    · exact Or.inl rfl

theorem pre_result_archive_html_good (env : Env) (url : String) (year month : Nat) :
    (pre_result env url year month).archive_html = "" ∨
      MIN_GOOD_LEN < (pre_result env url year month).archive_html.length := by
  unfold pre_result
  dsimp only
  split
  · exact fetch_archived_body_good _ _
  · exact Or.inl rfl

/-! ## Claim theorems -/

/-- C1: in every SnapshotResult returned by `collect_dual`,
`chosen_provenance = "archive"` iff the archive body length is at least
`MIN_GOOD_LEN`; when that fails, `chosen_provenance = "live"` iff the live
body length is at least `MIN_GOOD_LEN`; otherwise it is `"none"`.  Exactly
the matching reason code accompanies each choice: `archive_ok` with
`archive`, `archive_missing_or_small_live_ok` with `live`, and
`both_missing_or_small` with `none`, so the reason is fully determined by
the two body lengths. -/
theorem collect_dual_selection_invariant (env : Env) (url : String) (year month : Nat) :
    ((collect_dual env url year month).chosen_provenance = "archive" ↔
      MIN_GOOD_LEN ≤ (collect_dual env url year month).archive_html.length) ∧
    (¬ MIN_GOOD_LEN ≤ (collect_dual env url year month).archive_html.length →
      ((collect_dual env url year month).chosen_provenance = "live" ↔
        MIN_GOOD_LEN ≤ (collect_dual env url year month).live_html.length)) ∧
    (¬ MIN_GOOD_LEN ≤ (collect_dual env url year month).archive_html.length →
      ¬ MIN_GOOD_LEN ≤ (collect_dual env url year month).live_html.length →
      (collect_dual env url year month).chosen_provenance = "none") ∧
    ((collect_dual env url year month).reason = "archive_ok" ↔
      (collect_dual env url year month).chosen_provenance = "archive") ∧
    ((collect_dual env url year month).reason = "archive_missing_or_small_live_ok" ↔
      (collect_dual env url year month).chosen_provenance = "live") ∧
    ((collect_dual env url year month).reason = "both_missing_or_small" ↔
      (collect_dual env url year month).chosen_provenance = "none") := by
  rw [collect_dual_chosen, collect_dual_reason, collect_dual_archive_html, collect_dual_live_html]
  rcases select_provenance_cases (pre_result env url year month).archive_html
      (pre_result env url year month).live_html with ⟨ha, hs⟩ | ⟨ha, hl, hs⟩ | ⟨ha, hl, hs⟩ <;>
    rw [hs]
  · exact ⟨iff_of_true rfl ha, fun h => absurd ha h, fun h _ => absurd ha h,
      iff_of_true rfl rfl, iff_of_false (by decide) (by decide),
      iff_of_false (by decide) (by decide)⟩
  · exact ⟨iff_of_false (by decide) ha, fun _ => iff_of_true rfl hl,
      fun _ h => absurd hl h, iff_of_false (by decide) (by decide),
      iff_of_true rfl rfl, iff_of_false (by decide) (by decide)⟩
  · exact ⟨iff_of_false (by decide) ha, fun _ => iff_of_false (by decide) hl,
      fun _ _ => rfl, iff_of_false (by decide) (by decide),
      iff_of_false (by decide) (by decide), iff_of_true rfl rfl⟩

/-- C3: the Selector is deterministic — `select_provenance` is a pure
function, and its value depends only on whether each of the two body
lengths meets `MIN_GOOD_LEN`: any two pairs of bodies agreeing on those two
booleans get the identical (provenance, reason) pair, so no other signal
(status code, error type) can affect the outcome, and re-running it on the
same lengths trivially yields the same pair. -/
theorem select_provenance_deterministic (a a' l l' : String)
    (hA : MIN_GOOD_LEN ≤ a.length ↔ MIN_GOOD_LEN ≤ a'.length)
    (hL : MIN_GOOD_LEN ≤ l.length ↔ MIN_GOOD_LEN ≤ l'.length) :
    select_provenance a l = select_provenance a' l' := by
  unfold select_provenance
  by_cases ha : MIN_GOOD_LEN ≤ a.length
  · rw [if_pos ha, if_pos (hA.mp ha)]
  · rw [if_neg ha, if_neg (fun h => ha (hA.mpr h))]
    by_cases hl : MIN_GOOD_LEN ≤ l.length
    · rw [if_pos hl, if_pos (hL.mp hl)]
    · rw [if_neg hl, if_neg (fun h => hl (hL.mpr h))]

/-- Witness for C3 at concrete bodies with equal threshold booleans. -/
theorem select_provenance_deterministic_witness :
    select_provenance "" "" = select_provenance "x" "y" :=
  select_provenance_deterministic "" "x" "" "y" (by decide) (by decide)

/-- C4: the live fetch is always attempted and its outcome always populates
the returned record: for every environment (archive branch succeeding or
not), `live_html` and `status_live` are exactly the live fetch's outcome,
and the number of live network calls `collect_dual` makes is exactly the
number `fetch_live` makes on the url — the live fetch is unconditional. -/
theorem collect_dual_live_always (env : Env) (url : String) (year month : Nat) :
    (collect_dual env url year month).live_html =
      (fetch_live env.liveAttempts url).1.getD "" ∧
    (collect_dual env url year month).status_live =
      strOfCode (fetch_live env.liveAttempts url).2 ∧
    collect_dual_live_calls env url year month = fetch_live_calls env.liveAttempts url :=
  ⟨rfl, rfl, rfl⟩

/-- C9: in every SnapshotResult returned by `collect_dual`, each recorded
body is either empty or strictly longer than `MIN_GOOD_LEN` — no body with
length between 1 and `MIN_GOOD_LEN` inclusive is ever recorded, because the
fetch functions discard any response whose text is not strictly longer
than `MIN_GOOD_LEN`. -/
theorem collect_dual_body_length_gap (env : Env) (url : String) (year month : Nat) :
    ((collect_dual env url year month).archive_html = "" ∨
      MIN_GOOD_LEN < (collect_dual env url year month).archive_html.length) ∧
    ((collect_dual env url year month).live_html = "" ∨
      MIN_GOOD_LEN < (collect_dual env url year month).live_html.length) := by
  constructor
  · rw [collect_dual_archive_html]
    exact pre_result_archive_html_good env url year month
  · rw [collect_dual_live_html, pre_result_live_html]
    exact fetch_live_body_good _ _

/-- C5: if the archive lookup resolves no snapshot — `wayback_lookup` returns
`(none, none)` — then `collect_dual` makes no archive fetch call, all archive
fields of the returned record stay empty, and the selection is exactly the
Selector run with an empty archive body, which can never choose
`"archive"`: it falls through to the live branch. -/
theorem no_archive_found_fallthrough (env : Env) (url : String) (year month : Nat)
    (h : wayback_lookup env.lookupAttempts env.parseClosest url year month = (none, none)) :
    collect_dual_archive_calls env url year month = 0 ∧
    (collect_dual env url year month).archive_html = "" ∧
    (collect_dual env url year month).status_archive = "" ∧
    (collect_dual env url year month).archive_url = "" ∧
    (collect_dual env url year month).snapshot_ts = "" ∧
    ((collect_dual env url year month).chosen_provenance,
        (collect_dual env url year month).reason) =
      select_provenance "" (collect_dual env url year month).live_html ∧
    (collect_dual env url year month).chosen_provenance ≠ "archive" := by
  have hpre : pre_result env url year month =
      { initial_result with
          live_html := (fetch_live env.liveAttempts url).1.getD ""
          status_live := strOfCode (fetch_live env.liveAttempts url).2 } := by
    simp only [pre_result, h]
    simp [initial_result]
  have hcalls : collect_dual_archive_calls env url year month = 0 := by
    simp only [collect_dual_archive_calls, h]
    simp
  have hcd : collect_dual env url year month =
      apply_selection { initial_result with
        live_html := (fetch_live env.liveAttempts url).1.getD ""
        status_live := strOfCode (fetch_live env.liveAttempts url).2 } := by
    rw [collect_dual, hpre]
  have harch : (collect_dual env url year month).archive_html = "" := by rw [hcd]; rfl
  have hlive : (collect_dual env url year month).live_html =
      (fetch_live env.liveAttempts url).1.getD "" := by rw [hcd]; rfl
  have hsel : ((collect_dual env url year month).chosen_provenance,
      (collect_dual env url year month).reason) =
      select_provenance "" (collect_dual env url year month).live_html := by
    rw [hcd]
    exact Prod.mk.eta
  refine ⟨hcalls, harch, by rw [hcd]; rfl, by rw [hcd]; rfl, by rw [hcd]; rfl, hsel, ?_⟩
  rcases select_provenance_cases "" ((collect_dual env url year month).live_html) with
    ⟨ha, _⟩ | ⟨_, _, hs⟩ | ⟨_, _, hs⟩
  · exact absurd ha (by decide)
  · intro hc
    have : (collect_dual env url year month).chosen_provenance =
        (select_provenance "" ((collect_dual env url year month).live_html)).1 :=
      congrArg Prod.fst hsel
    rw [hs] at this
    exact absurd (hc ▸ this) (by decide)
  · intro hc
    have : (collect_dual env url year month).chosen_provenance =
        (select_provenance "" ((collect_dual env url year month).live_html)).1 :=
      congrArg Prod.fst hsel
    rw [hs] at this
    exact absurd (hc ▸ this) (by decide)

/-- Witness for C5: the lookup's transport fails on every attempt, so it
resolves no snapshot; the conclusion holds at this concrete input. -/
theorem no_archive_found_fallthrough_witness :
    collect_dual_archive_calls envLookupFails "http://example.com" 2020 1 = 0 ∧
    (collect_dual envLookupFails "http://example.com" 2020 1).archive_html = "" ∧
    (collect_dual envLookupFails "http://example.com" 2020 1).status_archive = "" ∧
    (collect_dual envLookupFails "http://example.com" 2020 1).archive_url = "" ∧
    (collect_dual envLookupFails "http://example.com" 2020 1).snapshot_ts = "" ∧
    ((collect_dual envLookupFails "http://example.com" 2020 1).chosen_provenance,
        (collect_dual envLookupFails "http://example.com" 2020 1).reason) =
      select_provenance "" (collect_dual envLookupFails "http://example.com" 2020 1).live_html ∧
    (collect_dual envLookupFails "http://example.com" 2020 1).chosen_provenance ≠ "archive" :=
  no_archive_found_fallthrough envLookupFails "http://example.com" 2020 1 rfl

/-- C6: for the empty URL, `fetch_live` returns `(none, 0)` making zero
network calls, and (the lookup also short-circuiting on the empty URL, so
no archive snapshot resolves) `collect_dual` returns
`chosen_provenance = "none"` with reason `both_missing_or_small`. -/
theorem empty_url_both_missing (attempts : Nat → Attempt) (env : Env) (year month : Nat) :
    fetch_live attempts "" = (none, 0) ∧
    fetch_live_calls attempts "" = 0 ∧
    wayback_lookup env.lookupAttempts env.parseClosest "" year month = (none, none) ∧
    (collect_dual env "" year month).chosen_provenance = "none" ∧
    (collect_dual env "" year month).reason = "both_missing_or_small" :=
  ⟨rfl, rfl, rfl, rfl, rfl⟩

/-- C7: when the transport fails on all 3 attempts, `_get` surfaces the last
exception, `fetch_live`/`fetch_archived` degrade to `(none, 0)` and
`wayback_lookup` to `(none, none)`; and for every environment whatsoever
`collect_dual` returns a well-formed SnapshotResult, its provenance/reason
pair being one of the three legal combinations — no failure mode escapes. -/
theorem retry_exhaustion_harmless (es : Nat → String) (parse : String → Option Closest)
    (url : String) (year month : Nat) (env : Env) :
    _get (fun i => Attempt.exc (es i)) 3 = Except.error (es 2) ∧
    fetch_live (fun i => Attempt.exc (es i)) url = (none, 0) ∧
    fetch_archived (fun i => Attempt.exc (es i)) url = (none, 0) ∧
    wayback_lookup (fun i => Attempt.exc (es i)) parse url year month = (none, none) ∧
    (((collect_dual env url year month).chosen_provenance = "archive" ∧
        (collect_dual env url year month).reason = "archive_ok") ∨
      ((collect_dual env url year month).chosen_provenance = "live" ∧
        (collect_dual env url year month).reason = "archive_missing_or_small_live_ok") ∨
      ((collect_dual env url year month).chosen_provenance = "none" ∧
        (collect_dual env url year month).reason = "both_missing_or_small")) := by
  refine ⟨rfl, ?_, ?_, ?_, ?_⟩
  · unfold fetch_live
    split
    · rfl
    · rfl
  · unfold fetch_archived
    split
    · rfl
    · rfl
  · unfold wayback_lookup
    split
    · rfl
    · rfl
  · rcases select_provenance_cases (pre_result env url year month).archive_html
        (pre_result env url year month).live_html with ⟨_, hs⟩ | ⟨_, _, hs⟩ | ⟨_, _, hs⟩
    · exact Or.inl ⟨by rw [collect_dual_chosen, hs], by rw [collect_dual_reason, hs]⟩
    · exact Or.inr (Or.inl ⟨by rw [collect_dual_chosen, hs], by rw [collect_dual_reason, hs]⟩)
    · exact Or.inr (Or.inr ⟨by rw [collect_dual_chosen, hs], by rw [collect_dual_reason, hs]⟩)

/-- First successful transport attempt returns immediately: one call. -/
theorem getRun_first_ok (attempts : Nat → Attempt) (r : Response) (i fuel : Nat)
    (last : Option String) (h0 : attempts i = Attempt.ok r) :
    getRun attempts i (fuel + 1) last = (Except.ok r, 1) := by
  unfold getRun
  rw [h0]

/-- C8: a non-200 HTTP status is never retried — when the first transport
attempt yields a response, `_get` returns it at once having made exactly one
network call, whatever its status; a non-200 response is then treated by
the fetch layer as a failure (`body = none`) with the status code preserved
in the outcome for diagnostics. -/
theorem non_200_not_retried (attempts : Nat → Attempt) (r : Response) (tries : Nat)
    (url : String) (htries : 1 ≤ tries) (h0 : attempts 0 = Attempt.ok r)
    (hurl : url ≠ "") (hst : r.status_code ≠ 200) :
    _get attempts tries = Except.ok r ∧
    _get_calls attempts tries = 1 ∧
    fetch_live attempts url = (none, r.status_code) ∧
    fetch_archived attempts url = (none, r.status_code) := by
  have hrun : ∀ fuel, getRun attempts 0 (fuel + 1) none = (Except.ok r, 1) :=
    fun fuel => getRun_first_ok attempts r 0 fuel none h0
  have hget3 : _get attempts 3 = Except.ok r := by
    unfold _get
    rw [show (3 : Nat) = 2 + 1 from rfl, hrun 2]
  obtain ⟨fuel, rfl⟩ : ∃ fuel, tries = fuel + 1 :=
    ⟨tries - 1, (Nat.succ_pred_eq_of_pos htries).symm⟩
  refine ⟨?_, ?_, ?_, ?_⟩
  · unfold _get
    rw [hrun fuel]
  · unfold _get_calls
    rw [hrun fuel]
  · unfold fetch_live
    rw [if_neg hurl, hget3]
    exact if_neg (fun hc => hst hc.1)
  · unfold fetch_archived
    rw [if_neg hurl, hget3]
    exact if_neg (fun hc => hst hc.1)

/-- Witness for C8: a single 503 response is returned at once, not retried,
and recorded as a failed fetch with its status preserved. -/
theorem non_200_not_retried_witness :
    _get (fun _ => Attempt.ok ⟨503, "service unavailable"⟩) 3 =
      Except.ok ⟨503, "service unavailable"⟩ ∧
    _get_calls (fun _ => Attempt.ok ⟨503, "service unavailable"⟩) 3 = 1 ∧
    fetch_live (fun _ => Attempt.ok ⟨503, "service unavailable"⟩) "http://example.com" =
      (none, 503) ∧
    fetch_archived (fun _ => Attempt.ok ⟨503, "service unavailable"⟩) "http://example.com" =
      (none, 503) :=
  non_200_not_retried (fun _ => Attempt.ok ⟨503, "service unavailable"⟩)
    ⟨503, "service unavailable"⟩ 3 "http://example.com" (by decide) rfl
    (by decide) (by decide)

set_option maxRecDepth 400000 in
/-- C2 counterexample: a status-200 archive fetch whose body has exactly
`MIN_GOOD_LEN = 800` characters (with an empty live body) does NOT yield
`chosen_provenance = "archive"`: the fetch layer keeps a body only when it
is strictly longer than `MIN_GOOD_LEN`, so the 800-character body is
discarded and the result is `"none"`. -/
theorem threshold_boundary_counterexample :
    archBody800.length = MIN_GOOD_LEN ∧
    envExactThreshold.archiveAttempts 0 = Attempt.ok ⟨200, archBody800⟩ ∧
    envExactThreshold.liveAttempts 0 = Attempt.ok ⟨200, ""⟩ ∧
    (collect_dual envExactThreshold "http://example.com" 2020 1).chosen_provenance ≠
      "archive" ∧
    (collect_dual envExactThreshold "http://example.com" 2020 1).chosen_provenance =
      "none" := by
  refine ⟨by decide, rfl, rfl, by decide, by decide⟩

set_option maxRecDepth 400000 in
/-- C2 amended: through the fetch path a body counts as good only when
STRICTLY longer than `MIN_GOOD_LEN`.  With `MIN_GOOD_LEN = 800`: a
status-200 fetch with an 801-character archive body and an empty live body
gives `chosen_provenance = "archive"`; an 800-character archive body with an
801-character live body gives `chosen_provenance = "live"`; an
800-character archive body with an empty live body gives `"none"`. -/
theorem threshold_boundary_amended :
    archBody801.length = MIN_GOOD_LEN + 1 ∧
    archBody800.length = MIN_GOOD_LEN ∧
    liveBody801.length = MIN_GOOD_LEN + 1 ∧
    (collect_dual envGood801 "http://example.com" 2020 1).chosen_provenance =
      "archive" ∧
    (collect_dual envBorderLive "http://example.com" 2020 1).chosen_provenance =
      "live" ∧
    (collect_dual envExactThreshold "http://example.com" 2020 1).chosen_provenance =
      "none" := by
  refine ⟨by decide, by decide, by decide, by decide, by decide, by decide⟩

set_option maxRecDepth 400000 in
/-- C10: status codes are stored as strings via `str(code or "")`, so a
status of 0 (no response obtained) is recorded as the empty string, not
`"0"`; consequently a fetch that exhausted all retries (3 archive calls
made, status 0) leaves the same empty `status_archive` as a branch that was
never fetched at all (0 archive calls made). -/
theorem status_zero_recorded_empty (env : Env) (url : String) (year month : Nat) :
    strOfCode 0 = "" ∧
    strOfCode 0 ≠ "0" ∧
    strOfCode 200 = "200" ∧
    (collect_dual env url year month).status_live =
      strOfCode (fetch_live env.liveAttempts url).2 ∧
    (collect_dual envArchiveTransportFails "http://example.com" 2020 1).status_archive =
      "" ∧
    collect_dual_archive_calls envArchiveTransportFails "http://example.com" 2020 1 = 3 ∧
    (collect_dual envLookupFails "http://example.com" 2020 1).status_archive = "" ∧
    collect_dual_archive_calls envLookupFails "http://example.com" 2020 1 = 0 := by
  refine ⟨rfl, by decide, by decide, rfl, by decide, by decide, by decide, by decide⟩

end WaybackFetch
